import Mathlib

/-!
Verification of the Spot-it-style projective-plane deck generator
(src/src/components/Card.js): a shallow embedding of
constructProjectivePlane, verifyProjectivePlane, SYMBOLS and
generateCardSymbols, together with proofs of the structural properties
stated in the specification.

Modelling conventions:
- JS coordinates are either a natural number or the string "inf";
  they are embedded as the inductive type Coord.
- Array.prototype.findIndex is embedded through List.findIdx?, with the
  JS not-found result -1 made explicit, so card entries are integers.
- console.error diagnostics are embedded as a structured list of Diag
  values (one value per emitted message); the boolean result of
  verifyProjectivePlane is the emptiness of that list, exactly as the
  JS function returns false iff it pushed at least one error string.
- A JS Set is embedded as a duplicate-free list built by insertion
  (jsSetOf); only its cardinality is ever read.
- The JS array access SYMBOLS[point], which yields undefined when
  point is out of range, is embedded as an Option-valued lookup.
-/

set_option maxRecDepth 8000
set_option maxHeartbeats 4000000

/-- Coordinate of a point of the plane: a finite value in [0, q) or the
marker "inf", as used by the strings in the JS points array. -/
inductive Coord where
  | fin (n : Nat)
  | inf
deriving DecidableEq

/-- A point is a pair of coordinates, mirroring the two-element JS arrays
pushed into the points list. -/
abbrev Point := Coord × Coord

/-- The points list built by constructProjectivePlane: affine points in
row-major (x, y) order, then the q sloped-infinity points, then
(inf, inf). -/
def planePoints (q : Nat) : List Point :=
  ((List.range q).flatMap fun x => (List.range q).map fun y => (Coord.fin x, Coord.fin y))
    ++ ((List.range q).map fun x => (Coord.fin x, Coord.inf))
    ++ [(Coord.inf, Coord.inf)]

/-- Embedding of points.findIndex(p => p[0] === a && p[1] === b): the
index of the first matching point, or -1 when none matches. -/
def findPointIndex (pts : List Point) (a b : Coord) : Int :=
  match pts.findIdx? (fun p => decide (p.1 = a) && decide (p.2 = b)) with
  | some i => (i : Int)
  | none => -1

/-- Finite-field addition helper of constructProjectivePlane:
(a + b) % q. -/
def add (q a b : Nat) : Nat := (a + b) % q

/-- Finite-field multiplication helper of constructProjectivePlane:
(a * b) % q. -/
def multiply (q a b : Nat) : Nat := (a * b) % q

/-- The deck built by constructProjectivePlane(order): slanted lines
y = m x + b (m outer, b inner), then vertical lines x = k, then the
line at infinity.  Each line records point indices found by linear
search over the points list, exactly as the JS code does. -/
def constructProjectivePlane (order : Nat) : List (List Int) :=
  let q := order
  let points := planePoints q
  let slanted := (List.range q).flatMap fun m => (List.range q).map fun b =>
    ((List.range q).map fun x =>
      findPointIndex points (Coord.fin x) (Coord.fin (add q (multiply q m x) b)))
      ++ [findPointIndex points (Coord.fin m) Coord.inf]
  let vertical := (List.range q).map fun k =>
    ((List.range q).map fun y => findPointIndex points (Coord.fin k) (Coord.fin y))
      ++ [findPointIndex points Coord.inf Coord.inf]
  let infinityLine :=
    ((List.range q).map fun x => findPointIndex points (Coord.fin x) Coord.inf)
      ++ [findPointIndex points Coord.inf Coord.inf]
  slanted ++ vertical ++ [infinityLine]

/-- Structured form of the console.error diagnostics emitted by the
builder self-check and by verifyProjectivePlane.  Each constructor
corresponds to one of the message templates in the JS source. -/
inductive Diag where
  | cardCount (n expected : Nat)
  | cardSize (i len expected : Nat)
  | pairShare (i j len : Nat)
  | unionCount (count expected : Nat)
deriving DecidableEq

/-- Embedding of plane[i].filter(symbol => plane[j].includes(symbol)). -/
def jsIntersection {α : Type} [DecidableEq α] (a b : List α) : List α :=
  a.filter fun s => decide (s ∈ b)

/-- Insertion loop of a JS Set: elements of the first list are added in
order to the accumulated set, skipping those already present. -/
def jsSetOf {α : Type} [DecidableEq α] : List α → List α → List α
  | [], seen => seen
  | x :: xs, seen => if x ∈ seen then jsSetOf xs seen else jsSetOf xs (x :: seen)

/-- The contents of a JS Set filled from the given list; only its length
(the Set size) is ever used. -/
def jsSetList {α : Type} [DecidableEq α] (l : List α) : List α :=
  jsSetOf l []

/-- Diagnostics accumulated by verifyProjectivePlane, in emission order:
the card-count check, then for each card its size check followed by the
intersection checks against all later cards, then the distinct-symbol
count check.  The order q is hardcoded to 7 exactly as in the source. -/
def verifyErrors {α : Type} [DecidableEq α] (plane : List (List α)) : List Diag :=
  let n := plane.length
  let q := 7
  let expectedN := q * q + q + 1
  let countErr : List Diag :=
    if n = expectedN then [] else [Diag.cardCount n expectedN]
  let cardErrs : List Diag := (List.range n).flatMap fun i =>
    (if (plane.getD i []).length = q + 1 then []
     else [Diag.cardSize i (plane.getD i []).length (q + 1)])
    ++ ((List.range' (i + 1) (n - (i + 1))).filter (fun j =>
          decide ((jsIntersection (plane.getD i []) (plane.getD j [])).length ≠ 1))).map (fun j =>
          Diag.pairShare i j (jsIntersection (plane.getD i []) (plane.getD j [])).length)
  let unionSize := (jsSetList plane.flatten).length
  let unionErr : List Diag :=
    if unionSize = expectedN then [] else [Diag.unionCount unionSize expectedN]
  countErr ++ cardErrs ++ unionErr

/-- Embedding of verifyProjectivePlane: returns true iff no diagnostic
was recorded, as the JS function returns false exactly when its errors
array is nonempty. -/
def verifyProjectivePlane {α : Type} [DecidableEq α] (plane : List (List α)) : Bool :=
  (verifyErrors plane).isEmpty

/-- Diagnostics emitted by the self-check inside constructProjectivePlane,
in emission order: the card-count check, then the per-line size checks,
then the pairwise intersection checks.  (The builder self-check has no
distinct-symbol-count check.) -/
def constructDiagnostics (order : Nat) : List Diag :=
  let q := order
  let n := q * q + q + 1
  let plane := constructProjectivePlane order
  let countErr : List Diag :=
    if plane.length = n then [] else [Diag.cardCount plane.length n]
  let sizeErrs : List Diag := (List.range plane.length).flatMap fun i =>
    if (plane.getD i []).length = q + 1 then []
    else [Diag.cardSize i (plane.getD i []).length (q + 1)]
  let pairErrs : List Diag := (List.range plane.length).flatMap fun i =>
    ((List.range' (i + 1) (plane.length - (i + 1))).filter (fun j =>
        decide ((jsIntersection (plane.getD i []) (plane.getD j [])).length ≠ 1))).map (fun j =>
        Diag.pairShare i j (jsIntersection (plane.getD i []) (plane.getD j [])).length)
  countErr ++ sizeErrs ++ pairErrs

/-- The fixed glyph array of the presentation layer, exactly as listed in
the source. -/
def SYMBOLS : List Char :=
  ['♠', '♥', '♦', '♣', '♤', '♡', '♢', '♧', '♚', '♛', '♜', '♝', '♞', '♟',
   '☀', '☁', '☂', '☃', '☄', '★', '☆', '☎', '☏', '☐', '☑', '☒', '☓', '☖',
   '☗', '☘', '☙', '☚', '☛', '☜', '☝', '☞', '☟', '☠', '☡', '☢', '☣', '☤',
   '☥', '☦', '☧', '☨', '☩', '☪', '☫', '☬', '☭', '☮', '☯', '☰', '☱', '☲']

/-- JS array access arr[i] for an integer index: undefined (none) when
the index is negative or at least the array length. -/
def jsArrayGet (l : List Char) (i : Int) : Option Char :=
  if i < 0 then none else l[i.toNat]?

/-- Embedding of generateCardSymbols: the order-7 deck with every point
index replaced by SYMBOLS[point] (undefined when out of range). -/
def generateCardSymbols : List (List (Option Char)) :=
  let order := 7
  let projective_plane := constructProjectivePlane order
  projective_plane.map fun line => line.map fun point => jsArrayGet SYMBOLS point

/-- Explicit listing of the order-7 deck; equal to
constructProjectivePlane 7 by construct7_eq, and used to keep kernel
evaluation of facts about the reference deck tractable. -/
def deckLit7 : List (List Int) :=
  [[0, 7, 14, 21, 28, 35, 42, 49], [1, 8, 15, 22, 29, 36, 43, 49], [2, 9, 16, 23, 30, 37, 44, 49], [3, 10, 17, 24, 31, 38, 45, 49],
   [4, 11, 18, 25, 32, 39, 46, 49], [5, 12, 19, 26, 33, 40, 47, 49], [6, 13, 20, 27, 34, 41, 48, 49], [0, 8, 16, 24, 32, 40, 48, 50],
   [1, 9, 17, 25, 33, 41, 42, 50], [2, 10, 18, 26, 34, 35, 43, 50], [3, 11, 19, 27, 28, 36, 44, 50], [4, 12, 20, 21, 29, 37, 45, 50],
   [5, 13, 14, 22, 30, 38, 46, 50], [6, 7, 15, 23, 31, 39, 47, 50], [0, 9, 18, 27, 29, 38, 47, 51], [1, 10, 19, 21, 30, 39, 48, 51],
   [2, 11, 20, 22, 31, 40, 42, 51], [3, 12, 14, 23, 32, 41, 43, 51], [4, 13, 15, 24, 33, 35, 44, 51], [5, 7, 16, 25, 34, 36, 45, 51],
   [6, 8, 17, 26, 28, 37, 46, 51], [0, 10, 20, 23, 33, 36, 46, 52], [1, 11, 14, 24, 34, 37, 47, 52], [2, 12, 15, 25, 28, 38, 48, 52],
   [3, 13, 16, 26, 29, 39, 42, 52], [4, 7, 17, 27, 30, 40, 43, 52], [5, 8, 18, 21, 31, 41, 44, 52], [6, 9, 19, 22, 32, 35, 45, 52],
   [0, 11, 15, 26, 30, 41, 45, 53], [1, 12, 16, 27, 31, 35, 46, 53], [2, 13, 17, 21, 32, 36, 47, 53], [3, 7, 18, 22, 33, 37, 48, 53],
   [4, 8, 19, 23, 34, 38, 42, 53], [5, 9, 20, 24, 28, 39, 43, 53], [6, 10, 14, 25, 29, 40, 44, 53], [0, 12, 17, 22, 34, 39, 44, 54],
   [1, 13, 18, 23, 28, 40, 45, 54], [2, 7, 19, 24, 29, 41, 46, 54], [3, 8, 20, 25, 30, 35, 47, 54], [4, 9, 14, 26, 31, 36, 48, 54],
   [5, 10, 15, 27, 32, 37, 42, 54], [6, 11, 16, 21, 33, 38, 43, 54], [0, 13, 19, 25, 31, 37, 43, 55], [1, 7, 20, 26, 32, 38, 44, 55],
   [2, 8, 14, 27, 33, 39, 45, 55], [3, 9, 15, 21, 34, 40, 46, 55], [4, 10, 16, 22, 28, 41, 47, 55], [5, 11, 17, 23, 29, 35, 48, 55],
   [6, 12, 18, 24, 30, 36, 42, 55], [0, 1, 2, 3, 4, 5, 6, 56], [7, 8, 9, 10, 11, 12, 13, 56], [14, 15, 16, 17, 18, 19, 20, 56],
   [21, 22, 23, 24, 25, 26, 27, 56], [28, 29, 30, 31, 32, 33, 34, 56], [35, 36, 37, 38, 39, 40, 41, 56], [42, 43, 44, 45, 46, 47, 48, 56],
   [49, 50, 51, 52, 53, 54, 55, 56]]


/-- Pairwise single-intersection property of a deck, stated on symbol-index
sets: any two distinct cards share exactly one point index. -/
abbrev pairwiseOneSpec (deck : List (List Int)) : Prop :=
  ∀ j, j < deck.length → ∀ i, i < j →
    ((deck.getD i []).toFinset ∩ (deck.getD j []).toFinset).card = 1

/-- Shape property of an order-q deck: exactly q * q + q + 1 cards, each a
sequence of exactly q + 1 distinct point indices. -/
abbrev sizesSpec (deck : List (List Int)) (q : Nat) : Prop :=
  deck.length = q * q + q + 1 ∧ ∀ c ∈ deck, c.length = q + 1 ∧ c.Nodup

/-- Union property of an order-q deck: the symbol indices across all cards
form exactly the full range 0..q * q + q with q * q + q + 1 distinct
members and no gaps. -/
abbrev unionSpec (deck : List (List Int)) (q : Nat) : Prop :=
  (jsSetList deck.flatten).length = q * q + q + 1 ∧
  (∀ k, k < q * q + q + 1 → (k : Int) ∈ deck.flatten) ∧
  (∀ v ∈ deck.flatten, 0 ≤ v ∧ v < ((q * q + q + 1 : Nat) : Int))

/-- The builder at the reference order 7 produces exactly the listed deck. -/
theorem construct7_eq : constructProjectivePlane 7 = deckLit7 := by decide

theorem ite_nil_iff {c : Prop} [Decidable c] (d : Diag) :
    ((if c then ([] : List Diag) else [d]) = []) ↔ c := by
  by_cases h : c <;> simp [h]

theorem verifyErrors_eq_nil_iff {α : Type} [DecidableEq α] (plane : List (List α)) :
    verifyErrors plane = [] ↔
      (plane.length = 57 ∧
       (∀ i, i < plane.length → (plane.getD i []).length = 8) ∧
       (∀ i j, i < j → j < plane.length →
         (jsIntersection (plane.getD i []) (plane.getD j [])).length = 1) ∧
       (jsSetList plane.flatten).length = 57) := by
  simp only [verifyErrors, List.append_eq_nil, List.flatMap_eq_nil_iff, List.mem_range,
    List.map_eq_nil_iff, List.filter_eq_nil_iff, List.mem_range'_1, ite_nil_iff,
    decide_eq_true_eq, not_not]
  constructor
  · rintro ⟨⟨hc, hcards⟩, hu⟩
    refine ⟨by omega, fun i hi => (hcards i hi).1, fun i j hij hj => ?_, by omega⟩
    exact (hcards i (by omega)).2 j ⟨by omega, by omega⟩
  · rintro ⟨hc, hsz, hpair, hu⟩
    refine ⟨⟨by omega, fun i hi => ⟨hsz i hi, fun j hj => ?_⟩⟩, by omega⟩
    exact hpair i j (by omega) (by omega)
theorem sum_map_add {β : Type} (l : List β) (f g : β → Nat) :
    (l.map fun b => f b + g b).sum = (l.map f).sum + (l.map g).sum := by
  induction l with
  | nil => rfl
  | cons x xs ih => simp only [List.map_cons, List.sum_cons, ih]; omega

theorem length_filter_eq_sum {β : Type} (l : List β) (p : β → Bool) :
    (l.filter p).length = (l.map fun b => if p b then 1 else 0).sum := by
  induction l with
  | nil => rfl
  | cons x xs ih => by_cases h : p x <;> simp [List.filter_cons, h, ih, Nat.add_comm]

theorem verifyErrors_length {α : Type} [DecidableEq α] (plane : List (List α)) :
    (verifyErrors plane).length =
      ((if plane.length = 57 then 0 else 1)
        + ((List.range plane.length).filter fun i =>
            decide ((plane.getD i []).length ≠ 8)).length
        + ((List.range plane.length).flatMap fun i =>
            (List.range' (i + 1) (plane.length - (i + 1))).filter fun j =>
              decide ((jsIntersection (plane.getD i []) (plane.getD j [])).length ≠ 1)).length
        + (if (jsSetList plane.flatten).length = 57 then 0 else 1)) := by
  simp only [verifyErrors, List.length_append, List.flatMap, List.length_flatten,
    List.map_map, Function.comp_def]
  rw [List.map_congr_left (g := fun i =>
        (if decide ((plane.getD i []).length ≠ 8) = true then 1 else 0)
          + ((List.range' (i + 1) (plane.length - (i + 1))).filter fun j =>
              decide ((jsIntersection (plane.getD i []) (plane.getD j [])).length ≠ 1)).length)
      (fun i _ => by
        simp only [List.getD_eq_getElem?_getD]
        by_cases h : (plane[i]?.getD []).length = 8 <;> simp [h])]
  rw [sum_map_add, ← length_filter_eq_sum]
  by_cases hc : plane.length = 57 <;>
    by_cases hu : (jsSetList plane.flatten).length = 57 <;>
      simp only [hc, hu, if_true, if_false] <;> simp <;> omega
theorem getD_set_self {α : Type} (l : List (List α)) (j : Nat) (v : List α)
    (hj : j < l.length) : (l.set j v).getD j [] = v := by
  simp [List.getD_eq_getElem?_getD, List.getElem?_set_self hj]

theorem getD_set_ne {α : Type} (l : List (List α)) {j k : Nat} (v : List α)
    (h : j ≠ k) : (l.set j v).getD k [] = l.getD k [] := by
  simp [List.getD_eq_getElem?_getD, List.getElem?_set_ne h]

theorem pairShare_mem_verifyErrors {α : Type} [DecidableEq α] {plane : List (List α)}
    {i j : Nat} (hij : i < j) (hj : j < plane.length)
    (hbad : (jsIntersection (plane.getD i []) (plane.getD j [])).length ≠ 1) :
    Diag.pairShare i j (jsIntersection (plane.getD i []) (plane.getD j [])).length
      ∈ verifyErrors plane := by
  simp only [verifyErrors]
  apply List.mem_append.mpr; left
  apply List.mem_append.mpr; right
  apply List.mem_flatMap.mpr
  refine ⟨i, List.mem_range.mpr (by omega), ?_⟩
  apply List.mem_append.mpr; right
  apply List.mem_map.mpr
  refine ⟨j, List.mem_filter.mpr ⟨List.mem_range'_1.mpr ⟨by omega, by omega⟩, ?_⟩, rfl⟩
  simpa using hbad

theorem length_filter_mem_append_singleton {α : Type} [DecidableEq α]
    (a b : List α) (s : α) (hs : s ∉ b) :
    (a.filter fun x => decide (x ∈ b ++ [s])).length
      = (a.filter fun x => decide (x ∈ b)).length + a.count s := by
  induction a with
  | nil => rfl
  | cons x xs ih =>
    rw [List.filter_cons, List.filter_cons, List.count_cons]
    by_cases hxs : x = s
    · have h1 : decide (x ∈ b ++ [s]) = true := decide_eq_true (by simp [hxs])
      have h2 : decide (x ∈ b) = false := decide_eq_false (by rw [hxs]; exact hs)
      rw [h1, h2, if_pos rfl, if_neg (by simp), if_pos (by simp [hxs])]
      simp only [List.length_cons, ih]
      omega
    · have h3 : decide (x ∈ b ++ [s]) = decide (x ∈ b) := by
        by_cases hxb : x ∈ b
        · rw [decide_eq_true (List.mem_append_left _ hxb), decide_eq_true hxb]
        · rw [decide_eq_false (by simp [hxb, hxs]), decide_eq_false hxb]
      have hcnt : (if (x == s) = true then 1 else 0) = 0 := by simp [hxs]
      rw [h3, hcnt]
      by_cases hxb : x ∈ b
      · rw [if_pos (decide_eq_true hxb), if_pos (decide_eq_true hxb)]
        simp only [List.length_cons, ih]
        omega
      · rw [if_neg (by simp [hxb]), if_neg (by simp [hxb])]
        simp only [ih]
        omega
theorem flatMap_range_eq_map {β : Type} (q n : Nat) (f : Nat → Nat → β) (hq : 0 < q) :
    (List.range n).flatMap (fun x => (List.range q).map (f x))
      = (List.range (n * q)).map fun k => f (k / q) (k % q) := by
  induction n with
  | zero => simp
  | succ n ih =>
    rw [List.range_succ, List.flatMap_append, ih, Nat.succ_mul, List.range_add,
      List.map_append, List.map_map]
    congr 1
    simp only [List.flatMap_cons, List.flatMap_nil, List.append_nil]
    refine List.map_congr_left fun y hy => ?_
    have hy' : y < q := List.mem_range.mp hy
    have hdiv : (n * q + y) / q = n := by
      rw [Nat.mul_comm n q, Nat.mul_add_div hq]
      simp [Nat.div_eq_of_lt hy']
    have hmod : (n * q + y) % q = y := by
      rw [Nat.mul_comm n q, Nat.mul_add_mod]
      exact Nat.mod_eq_of_lt hy'
    simp [Function.comp_def, hdiv, hmod]

theorem planePoints_eq (q : Nat) (hq : 0 < q) :
    planePoints q
      = ((List.range (q * q)).map fun k => ((Coord.fin (k / q), Coord.fin (k % q)) : Point))
        ++ ((List.range q).map fun x => ((Coord.fin x, Coord.inf) : Point))
        ++ [(Coord.inf, Coord.inf)] := by
  unfold planePoints
  rw [flatMap_range_eq_map q q _ hq]

theorem findIdx?_range_eq_some {p : Nat → Bool} {m t : Nat} (ht : t < m) (hp : p t = true)
    (hlow : ∀ k, k < t → p k = false) : (List.range m).findIdx? p = some t := by
  rw [List.findIdx?_eq_some_iff_getElem]
  refine ⟨by simpa, by simpa [List.getElem_range] using hp, fun k hk => ?_⟩
  simp [List.getElem_range, hlow k hk]

theorem findIdx?_range_eq_none {p : Nat → Bool} {m : Nat}
    (h : ∀ k, k < m → p k = false) : (List.range m).findIdx? p = none :=
  List.findIdx?_eq_none_iff.mpr fun x hx => h x (List.mem_range.mp hx)
theorem findPointIndex_affine (q x y : Nat) (hq : 0 < q) (hx : x < q) (hy : y < q) :
    findPointIndex (planePoints q) (Coord.fin x) (Coord.fin y) = ((x * q + y : Nat) : Int) := by
  have hfind : (planePoints q).findIdx?
      (fun p => decide (p.1 = Coord.fin x) && decide (p.2 = Coord.fin y))
        = some (x * q + y) := by
    rw [planePoints_eq q hq, List.findIdx?_append, List.findIdx?_append, List.findIdx?_map]
    have hA : (List.range (q * q)).findIdx?
        ((fun p => decide (p.1 = Coord.fin x) && decide (p.2 = Coord.fin y)) ∘
          fun k => ((Coord.fin (k / q), Coord.fin (k % q)) : Point)) = some (x * q + y) := by
      apply findIdx?_range_eq_some
      · calc x * q + y < x * q + q := by omega
          _ = (x + 1) * q := (Nat.succ_mul x q).symm
          _ ≤ q * q := Nat.mul_le_mul_right q hx
      · have hdiv : (x * q + y) / q = x := by
          rw [Nat.mul_comm x q, Nat.mul_add_div hq]
          simp [Nat.div_eq_of_lt hy]
        have hmod : (x * q + y) % q = y := by
          rw [Nat.mul_comm x q, Nat.mul_add_mod]
          exact Nat.mod_eq_of_lt hy
        simp [Function.comp_def, hdiv, hmod]
      · intro k hk
        simp only [Function.comp_def]
        by_cases h1 : k / q = x
        · by_cases h2 : k % q = y
          · exfalso
            have hdm := Nat.div_add_mod k q
            rw [h1, h2, Nat.mul_comm q x] at hdm
            omega
          · simp [h2]
        · simp [h1]
    rw [hA]
    rfl
  unfold findPointIndex
  rw [hfind]

theorem findPointIndex_slope (q x : Nat) (hq : 0 < q) (hx : x < q) :
    findPointIndex (planePoints q) (Coord.fin x) Coord.inf = ((q * q + x : Nat) : Int) := by
  have hfind : (planePoints q).findIdx?
      (fun p => decide (p.1 = Coord.fin x) && decide (p.2 = Coord.inf))
        = some (q * q + x) := by
    rw [planePoints_eq q hq, List.findIdx?_append, List.findIdx?_append, List.findIdx?_map,
      List.findIdx?_map]
    have hA : (List.range (q * q)).findIdx?
        ((fun p => decide (p.1 = Coord.fin x) && decide (p.2 = Coord.inf)) ∘
          fun k => ((Coord.fin (k / q), Coord.fin (k % q)) : Point)) = none := by
      apply findIdx?_range_eq_none
      intro k _
      simp [Function.comp_def]
    have hB : (List.range q).findIdx?
        ((fun p => decide (p.1 = Coord.fin x) && decide (p.2 = Coord.inf)) ∘
          fun v => ((Coord.fin v, Coord.inf) : Point)) = some x := by
      apply findIdx?_range_eq_some hx
      · simp [Function.comp_def]
      · intro k hk
        simp [Function.comp_def]
        omega
    rw [hA, hB]
    simp [Nat.add_comm]
  unfold findPointIndex
  rw [hfind]

theorem findPointIndex_infinity (q : Nat) (hq : 0 < q) :
    findPointIndex (planePoints q) Coord.inf Coord.inf = ((q * q + q : Nat) : Int) := by
  have hfind : (planePoints q).findIdx?
      (fun p => decide (p.1 = Coord.inf) && decide (p.2 = Coord.inf))
        = some (q * q + q) := by
    rw [planePoints_eq q hq, List.findIdx?_append, List.findIdx?_append, List.findIdx?_map,
      List.findIdx?_map]
    have hA : (List.range (q * q)).findIdx?
        ((fun p => decide (p.1 = Coord.inf) && decide (p.2 = Coord.inf)) ∘
          fun k => ((Coord.fin (k / q), Coord.fin (k % q)) : Point)) = none := by
      apply findIdx?_range_eq_none
      intro k _
      simp [Function.comp_def]
    have hB : (List.range q).findIdx?
        ((fun p => decide (p.1 = Coord.inf) && decide (p.2 = Coord.inf)) ∘
          fun v => ((Coord.fin v, Coord.inf) : Point)) = none := by
      apply findIdx?_range_eq_none
      intro k _
      simp [Function.comp_def]
    rw [hA, hB]
    simp
  unfold findPointIndex
  rw [hfind]


/-- C1: for every prime order q in the test set, every pair of distinct
cards in the deck returned by constructProjectivePlane q has symbol-index
sets whose intersection has size exactly 1. -/
theorem C1_pairwise_single_intersection :
    pairwiseOneSpec (constructProjectivePlane 2) ∧
    pairwiseOneSpec (constructProjectivePlane 3) ∧
    pairwiseOneSpec (constructProjectivePlane 5) ∧
    pairwiseOneSpec (constructProjectivePlane 7) := by
  refine ⟨by decide, by decide, by decide, ?_⟩
  rw [construct7_eq]
  decide

/-- C2: for every prime order q in the test set, constructProjectivePlane q
returns exactly q * q + q + 1 cards, each a sequence of exactly q + 1
distinct point indices. -/
theorem C2_deck_shape :
    sizesSpec (constructProjectivePlane 2) 2 ∧
    sizesSpec (constructProjectivePlane 3) 3 ∧
    sizesSpec (constructProjectivePlane 5) 5 ∧
    sizesSpec (constructProjectivePlane 7) 7 := by
  refine ⟨by decide, by decide, by decide, ?_⟩
  rw [construct7_eq]
  decide

/-- C3: for every prime order q in the test set, the union of all symbol
indices across the cards of constructProjectivePlane q has exactly
q * q + q + 1 distinct members and covers the full range 0..q * q + q
with no gaps. -/
theorem C3_symbol_union :
    unionSpec (constructProjectivePlane 2) 2 ∧
    unionSpec (constructProjectivePlane 3) 3 ∧
    unionSpec (constructProjectivePlane 5) 5 ∧
    unionSpec (constructProjectivePlane 7) 7 := by
  refine ⟨by decide, by decide, by decide, ?_⟩
  rw [construct7_eq]
  decide

/-- C4 counterexample: contrary to the claim, verifyProjectivePlane does
not pass on the deck built for the tested order q = 2, because the
verifier hardcodes the order 7. -/
theorem C4_counterexample :
    verifyProjectivePlane (constructProjectivePlane 2) = false := by decide

/-- C4 (amended): verifyProjectivePlane returns passed = true with empty
diagnostics on the order-7 deck only; on the decks of tested orders 2, 3
and 5 it returns passed = false, since its expected counts are hardcoded
for order 7. -/
theorem C4_true_only_for_order_7 :
    verifyErrors (constructProjectivePlane 7) = [] ∧
    verifyProjectivePlane (constructProjectivePlane 7) = true ∧
    verifyProjectivePlane (constructProjectivePlane 2) = false ∧
    verifyProjectivePlane (constructProjectivePlane 3) = false ∧
    verifyProjectivePlane (constructProjectivePlane 5) = false := by
  have h : verifyErrors (constructProjectivePlane 7) = [] := by
    rw [construct7_eq]
    decide
  refine ⟨h, ?_, by decide, by decide, by decide⟩
  unfold verifyProjectivePlane
  rw [h]
  rfl

/-- C5: verifyProjectivePlane returns passed = true iff none of the four
structural checks (card count 57, card sizes 8, pairwise intersections of
size 1, 57 distinct symbols, with the order hardcoded to 7) fails, and it
accumulates exactly one diagnostic per violation over the whole deck
instead of stopping at the first violation. -/
theorem C5_passed_iff_no_violation {α : Type} [DecidableEq α] (plane : List (List α)) :
    (verifyProjectivePlane plane = true ↔
      (plane.length = 57 ∧
       (∀ i, i < plane.length → (plane.getD i []).length = 8) ∧
       (∀ i j, i < j → j < plane.length →
         (jsIntersection (plane.getD i []) (plane.getD j [])).length = 1) ∧
       (jsSetList plane.flatten).length = 57)) ∧
    (verifyErrors plane).length =
      ((if plane.length = 57 then 0 else 1)
        + ((List.range plane.length).filter fun i =>
            decide ((plane.getD i []).length ≠ 8)).length
        + ((List.range plane.length).flatMap fun i =>
            (List.range' (i + 1) (plane.length - (i + 1))).filter fun j =>
              decide ((jsIntersection (plane.getD i []) (plane.getD j [])).length ≠ 1)).length
        + (if (jsSetList plane.flatten).length = 57 then 0 else 1)) := by
  constructor
  · rw [verifyProjectivePlane, List.isEmpty_eq_true]
    exact verifyErrors_eq_nil_iff plane
  · exact verifyErrors_length plane

/-- C6: adding to a card j of a valid order-7 deck a symbol s that occurs
on a distinct card i but not on card j makes verifyProjectivePlane return
passed = false, with at least one pair diagnostic referencing card j. -/
theorem C6_duplicated_symbol_detected {α : Type} [DecidableEq α]
    (plane : List (List α)) (i j : Nat) (s : α)
    (hvalid : verifyProjectivePlane plane = true)
    (hi : i < plane.length) (hj : j < plane.length) (hij : i ≠ j)
    (hs : s ∈ plane.getD i []) (hns : s ∉ plane.getD j []) :
    verifyProjectivePlane (plane.set j (plane.getD j [] ++ [s])) = false ∧
      ∃ a b len,
        Diag.pairShare a b len ∈ verifyErrors (plane.set j (plane.getD j [] ++ [s])) ∧
          (a = j ∨ b = j) := by
  have hnil : verifyErrors plane = [] := by
    simpa [verifyProjectivePlane, List.isEmpty_iff] using hvalid
  obtain ⟨hcount, hsize, hpair, hunion⟩ := (verifyErrors_eq_nil_iff plane).mp hnil
  set plane' := plane.set j (plane.getD j [] ++ [s]) with hplane'
  have hlen' : plane'.length = plane.length := List.length_set plane j _
  have hgetj : plane'.getD j [] = plane.getD j [] ++ [s] := getD_set_self plane j _ hj
  have key : ∃ a b len,
      Diag.pairShare a b len ∈ verifyErrors plane' ∧ (a = j ∨ b = j) := by
    rcases Nat.lt_or_ge i j with hlt | hge
    · have hgeti : plane'.getD i [] = plane.getD i [] := getD_set_ne plane _ (by omega)
      have hold : (jsIntersection (plane.getD i []) (plane.getD j [])).length = 1 :=
        hpair i j hlt hj
      have hcnt : 0 < (plane.getD i []).count s := List.count_pos_iff.mpr hs
      have hnew : (jsIntersection (plane'.getD i []) (plane'.getD j [])).length
          = 1 + (plane.getD i []).count s := by
        rw [hgeti, hgetj, jsIntersection, length_filter_mem_append_singleton _ _ _ hns]
        rw [jsIntersection] at hold
        omega
      have hbad : (jsIntersection (plane'.getD i []) (plane'.getD j [])).length ≠ 1 := by
        omega
      exact ⟨i, j, _, pairShare_mem_verifyErrors hlt (by omega) hbad, Or.inr rfl⟩
    · have hji : j < i := by omega
      have hgeti : plane'.getD i [] = plane.getD i [] := getD_set_ne plane _ (by omega)
      have hold : (jsIntersection (plane.getD j []) (plane.getD i [])).length = 1 :=
        hpair j i hji hi
      have hnew : (jsIntersection (plane'.getD j []) (plane'.getD i [])).length = 2 := by
        rw [hgeti, hgetj, jsIntersection, List.filter_append]
        rw [jsIntersection] at hold
        simp only [List.length_append, hold, List.filter_cons, List.filter_nil,
          decide_eq_true hs, if_pos rfl]
        rfl
      have hbad : (jsIntersection (plane'.getD j []) (plane'.getD i [])).length ≠ 1 := by
        omega
      exact ⟨j, i, _, pairShare_mem_verifyErrors hji (by omega) hbad, Or.inl rfl⟩
  obtain ⟨a, b, len, hmem, hab⟩ := key
  refine ⟨?_, a, b, len, hmem, hab⟩
  have hne : verifyErrors plane' ≠ [] := List.ne_nil_of_mem hmem
  simpa [verifyProjectivePlane, List.isEmpty_eq_false] using hne

/-- C6 witness: duplicating symbol 0 of card 0 onto card 1 of the listed
valid order-7 deck is detected, with a pair diagnostic involving card 1. -/
theorem C6_duplicated_symbol_detected_witness :
    verifyProjectivePlane deckLit7 = true ∧
    (0 : Nat) < deckLit7.length ∧ (1 : Nat) < deckLit7.length ∧ (0 : Nat) ≠ 1 ∧
    (0 : Int) ∈ deckLit7.getD 0 [] ∧ (0 : Int) ∉ deckLit7.getD 1 [] ∧
    (verifyProjectivePlane (deckLit7.set 1 (deckLit7.getD 1 [] ++ [(0 : Int)])) = false ∧
      ∃ a b len,
        Diag.pairShare a b len
            ∈ verifyErrors (deckLit7.set 1 (deckLit7.getD 1 [] ++ [(0 : Int)])) ∧
          (a = 1 ∨ b = 1)) := by
  have hv : verifyProjectivePlane deckLit7 = true := by decide
  exact ⟨hv, by decide, by decide, by decide, by decide, by decide,
    C6_duplicated_symbol_detected deckLit7 0 1 0 hv (by decide) (by decide) (by decide)
      (by decide) (by decide)⟩

/-- C7: for every order q at least 2, the linear-search point lookup used
by constructProjectivePlane agrees with the closed-form index: affine
(x, y) has index x * q + y, sloped-infinity (x, inf) has index q * q + x,
and (inf, inf) has index q * q + q. -/
theorem C7_closed_form_lookup (q : Nat) (hq : 2 ≤ q) :
    (∀ x, x < q → ∀ y, y < q →
      findPointIndex (planePoints q) (Coord.fin x) (Coord.fin y) = ((x * q + y : Nat) : Int)) ∧
    (∀ x, x < q →
      findPointIndex (planePoints q) (Coord.fin x) Coord.inf = ((q * q + x : Nat) : Int)) ∧
    findPointIndex (planePoints q) Coord.inf Coord.inf = ((q * q + q : Nat) : Int) :=
  ⟨fun x hx y hy => findPointIndex_affine q x y (by omega) hx hy,
   fun x hx => findPointIndex_slope q x (by omega) hx,
   findPointIndex_infinity q (by omega)⟩

/-- C7 witness: the closed-form lookup at order 3, point (2, 1), slope
point (2, inf) and the point (inf, inf). -/
theorem C7_closed_form_lookup_witness :
    (2 : Nat) ≤ 3 ∧
    findPointIndex (planePoints 3) (Coord.fin 2) (Coord.fin 1) = 7 ∧
    findPointIndex (planePoints 3) (Coord.fin 2) Coord.inf = 11 ∧
    findPointIndex (planePoints 3) Coord.inf Coord.inf = 12 := by
  have h := C7_closed_form_lookup 3 (by decide)
  exact ⟨by decide, h.1 2 (by decide) 1 (by decide), h.2.1 2 (by decide), h.2.2⟩

/-- C8: for every order at least 2, prime or not, constructProjectivePlane
is a total function returning a deck of exactly
order * order + order + 1 cards; its build-time self-check only emits
diagnostics and never prevents the deck from being returned. -/
theorem C8_total_build (order : Nat) (_h : 2 ≤ order) :
    (constructProjectivePlane order).length = order * order + order + 1 := by
  unfold constructProjectivePlane
  simp [List.flatMap, Function.comp_def, List.map_const, List.sum_replicate,
    Nat.smul_one_eq_cast]
  omega

/-- C8 witness: at the non-prime order 6 the build-time self-check emits
diagnostics, yet the full deck of 43 cards is still returned. -/
theorem C8_total_build_witness :
    (2 : Nat) ≤ 6 ∧ (constructProjectivePlane 6).length = 43 ∧
    (constructDiagnostics 6).isEmpty = false :=
  ⟨by decide, C8_total_build 6 (by decide), by decide⟩

/-- C9: evaluation of the code at the failing input of the claim: SYMBOLS
has only 56 (distinct) entries, not the at least 57 the specification
requires, so the point index 56, which does occur in the order-7 deck,
maps to undefined; every other occurring index maps to a defined glyph. -/
theorem C9_symbols_array_too_short :
    SYMBOLS.length = 56 ∧ SYMBOLS.Nodup ∧
    (56 : Int) ∈ (constructProjectivePlane 7).flatten ∧
    jsArrayGet SYMBOLS 56 = none ∧
    (∀ p ∈ (constructProjectivePlane 7).flatten, p ≠ 56 →
      (jsArrayGet SYMBOLS p).isSome = true) := by
  refine ⟨by decide, by decide, ?_, by decide, ?_⟩
  · rw [construct7_eq]
    decide
  · rw [construct7_eq]
    decide

/-- C10: the startup verification passes on the glyph-mapped deck returned
by generateCardSymbols, undefined entry included, and the index-to-glyph
mapping restricted to the 57 used point indices is injective. -/
theorem C10_startup_verification_passes :
    verifyProjectivePlane generateCardSymbols = true ∧
    (∀ a, a < 57 → ∀ b, b < 57 →
      jsArrayGet SYMBOLS ((a : Nat) : Int) = jsArrayGet SYMBOLS ((b : Nat) : Int) → a = b) := by
  constructor
  · show verifyProjectivePlane
        ((constructProjectivePlane 7).map fun line =>
          line.map fun point => jsArrayGet SYMBOLS point) = true
    rw [construct7_eq]
    decide
  · decide
